import Mathlib

/-!
Shallow embedding of the safetensors reader (src/src/lib.rs) and proofs
about it.  Files are modelled as byte lists (each entry a byte value),
Rust panics (assert!, panic!, unwrap, expect, debug overflow checks) as an
explicit `fatal` outcome distinct from a recoverable `Err` return, and the
f16/bf16/f32 element values by their little-endian bit patterns (the code
only ever bit-reinterprets raw bytes, it never computes with the floats).
-/

/-- Outcome of running a piece of the Rust code: a normal value, a
recoverable error returned to the caller (Rust `Err`), or a process-level
panic/abort (Rust `panic!`, `assert!`, `.unwrap()`, `.expect(..)`,
debug-mode arithmetic overflow). -/
inductive Outcome (α : Type) where
  | ok : α → Outcome α
  | err : String → Outcome α
  | fatal : String → Outcome α
deriving Repr, DecidableEq

/-- True exactly on the panic outcome. -/
def Outcome.isFatal : Outcome α → Bool
  | .fatal _ => true
  | _ => false

/-- True exactly on the recoverable-error outcome. -/
def Outcome.isErr : Outcome α → Bool
  | .err _ => true
  | _ => false

/-- JSON values, as produced by serde_json. Numbers are restricted to the
non-negative integers, the only numbers the descriptors use. -/
inductive Json where
  | null : Json
  | bool : Bool → Json
  | num : Nat → Json
  | str : String → Json
  | arr : List Json → Json
  | obj : List (String × Json) → Json
deriving Repr

/-- MetadataValue from lib.rs: one tensor descriptor as deserialized by
serde (`dtype: String`, `shape: Vec<usize>`, `data_offsets: Vec<usize>`). -/
structure MetadataValue where
  dtype : String
  shape : List Nat
  data_offsets : List Nat
deriving Repr, DecidableEq

/-- Metadata from lib.rs: the reserved `__metadata__` value plus the
flattened map of remaining keys.  The HashMap is modelled as an
association list. -/
structure Metadata where
  metadata : Json
  items : List (String × MetadataValue)
deriving Repr

/-- Tensor from lib.rs.  The f16/bf16/f32 element buffers hold the 16- or
32-bit little-endian patterns the code assembles (cast_vec and
read_f32_into are bit reinterpretations). -/
inductive Tensor where
  | U8 : List Nat → List Nat → Tensor
  | F16 : List Nat → List Nat → Tensor
  | Bf16 : List Nat → List Nat → Tensor
  | F32 : List Nat → List Nat → Tensor
deriving Repr, DecidableEq

/-- Tensor::shape from lib.rs. -/
def Tensor.shape : Tensor → List Nat
  | .U8 _ s => s
  | .F16 _ s => s
  | .Bf16 _ s => s
  | .F32 _ s => s

/-- Reader from lib.rs: the opaque metadata value and the name-to-tensor
map (modelled as an association list built in processing order). -/
structure Reader where
  metadata : Json
  tensors : List (String × Tensor)

/-- read_bytes from lib.rs, at an explicit cursor position: read_exact of
`size` bytes starting at `pos`; fails (io::ErrorKind::UnexpectedEof) when
fewer than `size` bytes remain. -/
def read_bytes (file : List Nat) (pos size : Nat) : Option (List Nat) :=
  if pos + size ≤ file.length then some ((file.drop pos).take size) else none

/-- Little-endian base-256 value of a byte list (u64::from_le_bytes and
friends). -/
def leNat : List Nat → Nat
  | [] => 0
  | b :: bs => b % 256 + 256 * leNat bs

/-- Assemble `size` little-endian `w`-byte words from a byte buffer
(read_u16_into / read_f32_into with LittleEndian). -/
def wordsLE (w size : Nat) (bs : List Nat) : List Nat :=
  (List.range size).map (fun i => leNat ((bs.drop (w * i)).take w))

/-- One decode task from Reader::from_file (the closure of the parallel
map, lines 75-131): a fresh file handle at position 0, `start`/`end`
taken by indexing `data_offsets` (index 1 panics when absent), then the
dtype dispatch.  `U8` never seeks (reads from offset 0) and reads
`end - start + 1` bytes; `F16`/`BF16`/`F32` seek to absolute offset
`start`; `F32` asserts `(end - start) % 2 == 0`.  usize subtraction
panics on underflow (debug build), and every task-level failure is an
unwrap/assert panic, never a returned error. -/
def decodeTask (file : List Nat) (v : MetadataValue) : Outcome Tensor :=
  match v.data_offsets with
  | s :: e :: _ =>
    match v.dtype with
    | "U8" =>
      if s ≤ e then
        match read_bytes file 0 (e - s + 1) with
        | some data => .ok (.U8 data v.shape)
        | none => .fatal "called Result::unwrap() on an Err value"
      else .fatal "attempt to subtract with overflow"
    | "F16" =>
      if s ≤ e then
        if (e - s) % 2 = 0 then
          match read_bytes file s (2 * ((e - s) / 2)) with
          | some bs => .ok (.F16 (wordsLE 2 ((e - s) / 2) bs) v.shape)
          | none => .fatal "called Result::unwrap() on an Err value"
        else .fatal "Invalid alignment."
      else .fatal "attempt to subtract with overflow"
    | "BF16" =>
      if s ≤ e then
        if (e - s) % 2 = 0 then
          match read_bytes file s (2 * ((e - s) / 2)) with
          | some bs => .ok (.Bf16 (wordsLE 2 ((e - s) / 2) bs) v.shape)
          | none => .fatal "called Result::unwrap() on an Err value"
        else .fatal "Invalid alignment."
      else .fatal "attempt to subtract with overflow"
    | "F32" =>
      if s ≤ e then
        if (e - s) % 2 = 0 then
          match read_bytes file s (4 * ((e - s) / 4)) with
          | some bs => .ok (.F32 (wordsLE 4 ((e - s) / 4) bs) v.shape)
          | none => .fatal "called Result::unwrap() on an Err value"
        else .fatal "Invalid alignment."
      else .fatal "attempt to subtract with overflow"
    | d => .fatal ("The dtype " ++ d ++ " is currently unsupported.")
  | _ => .fatal "index out of bounds"

/-- The parallel map-and-collect over the ordered keys (rayon
into_par_iter + collect into a HashMap), modelled sequentially: any
task panic propagates out of the collect. -/
def buildTensors (file : List Nat) : List (String × MetadataValue) → Outcome (List (String × Tensor))
  | [] => .ok []
  | (k, v) :: rest =>
    match decodeTask file v with
    | .ok t =>
      match buildTensors file rest with
      | .ok m => .ok ((k, t) :: m)
      | .err e => .err e
      | .fatal s => .fatal s
    | .err e => .err e
    | .fatal s => .fatal s

/-- Sort key of ordered_keys: `data_offsets[0]` (headD is only reached
after from_file has ruled out the empty-list panic case). -/
def startKey (kv : String × MetadataValue) : Nat :=
  kv.2.data_offsets.headD 0

/-- Stable insertion into a list ordered by ascending start offset. -/
def insertByStart (kv : String × MetadataValue) : List (String × MetadataValue) → List (String × MetadataValue)
  | [] => [kv]
  | x :: xs => if startKey kv ≤ startKey x then kv :: x :: xs else x :: insertByStart kv xs

/-- ordered_keys.sort_by_key(|&key| json_data.items[key].data_offsets[0])
from lib.rs, as a stable sort of the association list by start offset. -/
def sortByStart (items : List (String × MetadataValue)) : List (String × MetadataValue) :=
  items.foldr insertByStart []

/-- Open-brace character, kept as a plain code point. -/
def lbr : Char := Char.ofNat 123

/-- Close-brace character, kept as a plain code point. -/
def rbr : Char := Char.ofNat 125

/-- Skip JSON whitespace. -/
def skipWs : List Char → List Char
  | c :: cs => if c = ' ' ∨ c = '\n' ∨ c = '\t' ∨ c = '\r' then skipWs cs else c :: cs
  | [] => []

/-- Body of a JSON string after the opening quote, up to the closing
quote.  Escape sequences are outside the subset the descriptor files
use and make the parse fail. -/
def parseStrAux : List Char → Option (List Char × List Char)
  | [] => none
  | c :: cs =>
    if c = '"' then some ([], cs)
    else if c = '\\' then none
    else (parseStrAux cs).map (fun p => (c :: p.1, p.2))

/-- Decimal digits of a JSON number. -/
def parseNatAux : List Char → Nat → Nat × List Char
  | c :: cs, acc => if c.isDigit then parseNatAux cs (acc * 10 + (c.toNat - 48)) else (acc, c :: cs)
  | [], acc => (acc, [])

mutual

/-- Modelled from the spec: serde_json value parsing ("parse them as a
UTF-8 JSON object"); the library itself is not part of this repository.
Recursive-descent parser over the JSON subset the metadata block uses
(null, true, false, non-negative integers, escape-free strings, arrays,
objects), with a fuel argument for termination. -/
def parseValue : Nat → List Char → Option (Json × List Char)
  | 0, _ => none
  | fuel + 1, cs =>
    match skipWs cs with
    | [] => none
    | c :: rest =>
      if c = '"' then (parseStrAux rest).map (fun p => (.str (String.mk p.1), p.2))
      else if c = lbr then parseMembers fuel rest
      else if c = '[' then parseElems fuel rest
      else if c.isDigit then
        some (let p := parseNatAux (c :: rest) 0; (.num p.1, p.2))
      else
        match c :: rest with
        | 'n' :: 'u' :: 'l' :: 'l' :: r => some (.null, r)
        | 't' :: 'r' :: 'u' :: 'e' :: r => some (.bool true, r)
        | 'f' :: 'a' :: 'l' :: 's' :: 'e' :: r => some (.bool false, r)
        | _ => none

/-- Members of a JSON object, after the opening brace. -/
def parseMembers : Nat → List Char → Option (Json × List Char)
  | 0, _ => none
  | fuel + 1, cs =>
    match skipWs cs with
    | [] => none
    | c :: rest =>
      if c = rbr then some (.obj [], rest)
      else if c = '"' then
        match parseStrAux rest with
        | none => none
        | some (key, r1) =>
          match skipWs r1 with
          | ':' :: r2 =>
            match parseValue fuel r2 with
            | none => none
            | some (v, r3) =>
              match skipWs r3 with
              | ',' :: r4 =>
                match parseMembers fuel r4 with
                | some (.obj ms, r5) => some (.obj ((String.mk key, v) :: ms), r5)
                | _ => none
              | c2 :: r4 =>
                if c2 = rbr then some (.obj [(String.mk key, v)], r4) else none
              | [] => none
          | _ => none
      else none

/-- Elements of a JSON array, after the opening bracket. -/
def parseElems : Nat → List Char → Option (Json × List Char)
  | 0, _ => none
  | fuel + 1, cs =>
    match skipWs cs with
    | [] => none
    | c :: rest =>
      if c = ']' then some (.arr [], rest)
      else
        match parseValue fuel (c :: rest) with
        | none => none
        | some (v, r1) =>
          match skipWs r1 with
          | ',' :: r2 =>
            match parseElems fuel r2 with
            | some (.arr vs, r3) => some (.arr (v :: vs), r3)
            | _ => none
          | ']' :: r2 => some (.arr [v], r2)
          | _ => none

end

/-- Top-level JSON parse of a character list: one value, then only
whitespace. -/
def parseJson (cs : List Char) : Option Json :=
  match parseValue (cs.length + 1) cs with
  | some (j, rest) => if skipWs rest = [] then some j else none
  | none => none

/-- Modelled from the spec: the metadata block is UTF-8 text; the
descriptor files in scope are plain ASCII, so a byte above 127 fails the
parse. -/
def decodeAscii (bs : List Nat) : Option (List Char) :=
  bs.mapM (fun b => if b < 128 then some (Char.ofNat b) else none)

/-- First JSON field with the given name. -/
def jLookup (fields : List (String × Json)) (k : String) : Option Json :=
  match fields with
  | [] => none
  | f :: fs => if f.1 = k then some f.2 else jLookup fs k

/-- A JSON array of non-negative integers, as serde reads a Vec of usize. -/
def asNatList : Json → Option (List Nat)
  | .arr xs => xs.mapM (fun j => match j with | .num n => some n | _ => none)
  | _ => none

/-- Deserialize of MetadataValue as generated by the serde derive:
an object with required fields dtype (string), shape and data_offsets
(arrays of usize); other fields are ignored. -/
def deserializeMetadataValue : Json → Except String MetadataValue
  | .obj fields =>
    match jLookup fields "dtype" with
    | some (.str d) =>
      match jLookup fields "shape" with
      | some shj =>
        match asNatList shj with
        | some sh =>
          match jLookup fields "data_offsets" with
          | some doj =>
            match asNatList doj with
            | some offs => .ok ⟨d, sh, offs⟩
            | none => .error "invalid type for data_offsets"
          | none => .error "missing field data_offsets"
        | none => .error "invalid type for shape"
      | none => .error "missing field shape"
    | some _ => .error "invalid type for dtype"
    | none => .error "missing field dtype"
  | _ => .error "invalid type: expected a map"

/-- Deserialize of Metadata as generated by the serde derive: the
`__metadata__` field is required (it is neither an Option nor given a
default, so a missing field is an error), and every remaining key of the
object must deserialize as a MetadataValue into the flattened map. -/
def deserializeMetadata : Json → Except String Metadata
  | .obj fields =>
    match jLookup fields "__metadata__" with
    | none => .error "missing field __metadata__"
    | some mv =>
      match (fields.filter (fun f => f.1 ≠ "__metadata__")).mapM
          (fun f => (deserializeMetadataValue f.2).map (fun v => (f.1, v))) with
      | .ok items => .ok ⟨mv, items⟩
      | .error e => .error e
  | _ => .error "invalid type: expected a map"

/-- serde_json::from_slice for Metadata: UTF-8 decode, JSON parse, then
the derived deserializer. -/
def from_slice (bs : List Nat) : Except String Metadata :=
  match decodeAscii bs with
  | none => .error "invalid utf-8"
  | some cs =>
    match parseJson cs with
    | none => .error "invalid json"
    | some j => deserializeMetadata j

/-- Header stage of Reader::from_file: read 8 bytes, take them as a
little-endian u64 N, read the next N bytes, deserialize.  read_exact
failures propagate with `?` as recoverable errors; a deserialization
failure hits `.expect("Invalid JSON")`, a panic. -/
def parseHeader (file : List Nat) : Outcome Metadata :=
  match read_bytes file 0 8 with
  | none => .err "unexpected end of file"
  | some nb =>
    match read_bytes file 8 (leNat nb) with
    | none => .err "unexpected end of file"
    | some jb =>
      match from_slice jb with
      | .error _ => .fatal "Invalid JSON"
      | .ok md => .ok md

/-- Reader::from_file from lib.rs: header stage, then the sort of the
keys by `data_offsets[0]` (indexing panics when some descriptor has an
empty data_offsets list), then the parallel decode and collect. -/
def from_file (file : List Nat) : Outcome Reader :=
  match parseHeader file with
  | .err e => .err e
  | .fatal s => .fatal s
  | .ok md =>
    if md.items.any (fun kv => kv.2.data_offsets.isEmpty) then .fatal "index out of bounds"
    else
      match buildTensors file (sortByStart md.items) with
      | .ok ts => .ok ⟨md.metadata, ts⟩
      | .err e => .err e
      | .fatal s => .fatal s

/-- Association-list lookup, the model of HashMap::get / map membership
for the name-to-value maps (keys of the source maps are unique). -/
def alookup : List (String × α) → String → Option α
  | [], _ => none
  | (k1, a) :: rest, k => if k = k1 then some a else alookup rest k

/-- UTF-8 bytes of an ASCII string literal. -/
def strBytes (s : String) : List Nat :=
  s.toList.map Char.toNat

/-- The 8 little-endian bytes of the metadata-length prefix. -/
def leBytes8 (n : Nat) : List Nat :=
  (List.range 8).map (fun i => n / 256 ^ i % 256)

/-- Metadata block of a well-formed one-tensor U8 file, declared range
[0,4) (73 bytes long, so N = 73). -/
def exJsonU8 : String :=
  "\x7b\"__metadata__\":null,\"t\":\x7b\"dtype\":\"U8\",\"shape\":[5],\"data_offsets\":[0,4]\x7d\x7d"

/-- Well-formed one-tensor U8 file: prefix N = 73, metadata, then five
data bytes 10..14 in the data region. -/
def exFileU8 : List Nat :=
  leBytes8 (strBytes exJsonU8).length ++ strBytes exJsonU8 ++ [10, 11, 12, 13, 14]

/-- Metadata block of a well-formed one-tensor F32 file, declared range
[0,4) (74 bytes long, so N = 74). -/
def exJsonF32 : String :=
  "\x7b\"__metadata__\":null,\"t\":\x7b\"dtype\":\"F32\",\"shape\":[1],\"data_offsets\":[0,4]\x7d\x7d"

/-- Well-formed one-tensor F32 file: prefix N = 74, metadata, then the
four data bytes 170,171,172,173 in the data region at offset 8 + 74. -/
def exFileF32 : List Nat :=
  leBytes8 (strBytes exJsonF32).length ++ strBytes exJsonF32 ++ [170, 171, 172, 173]

/-- Metadata block declaring one F32 tensor with byte range [0,6), whose
length 6 is not a multiple of 4 (74 bytes long, so N = 74). -/
def exJsonF32Mis : String :=
  "\x7b\"__metadata__\":null,\"t\":\x7b\"dtype\":\"F32\",\"shape\":[1],\"data_offsets\":[0,6]\x7d\x7d"

/-- File declaring one F32 tensor with the misaligned range [0,6). -/
def exFileF32Mis : List Nat :=
  leBytes8 (strBytes exJsonF32Mis).length ++ strBytes exJsonF32Mis ++ [1, 2, 3, 4, 5, 6]

/-- Metadata block declaring tensor a with supported dtype U8 and tensor
b with the unsupported dtype I64 (127 bytes long, so N = 127). -/
def exJsonMix : String :=
  "\x7b\"__metadata__\":null,\"a\":\x7b\"dtype\":\"U8\",\"shape\":[2],\"data_offsets\":[0,2]\x7d,\"b\":\x7b\"dtype\":\"I64\",\"shape\":[1],\"data_offsets\":[2,10]\x7d\x7d"

/-- File with one supported-dtype tensor and one unsupported-dtype
tensor. -/
def exFileMix : List Nat :=
  leBytes8 (strBytes exJsonMix).length ++ strBytes exJsonMix ++ List.range 10

/-- File whose 8-byte prefix declares N = 1 and whose metadata block is
the single byte 120 (the character x), which is not valid JSON. -/
def exFileBadJson : List Nat :=
  leBytes8 1 ++ [120]

/-- Metadata block declaring one descriptor with data_offsets [5,3],
that is start > end (73 bytes long, so N = 73). -/
def exJsonRev : String :=
  "\x7b\"__metadata__\":null,\"t\":\x7b\"dtype\":\"U8\",\"shape\":[2],\"data_offsets\":[5,3]\x7d\x7d"

/-- File declaring one descriptor with start > end. -/
def exFileRev : List Nat :=
  leBytes8 (strBytes exJsonRev).length ++ strBytes exJsonRev ++ [1, 2, 3, 4, 5]

/-- Valid metadata block that omits the reserved __metadata__ key
(53 bytes long, so N = 53). -/
def exJsonNoMeta : String :=
  "\x7b\"t\":\x7b\"dtype\":\"U8\",\"shape\":[4],\"data_offsets\":[0,4]\x7d\x7d"

/-- Well-formed file except that its metadata JSON object omits the
reserved __metadata__ key. -/
def exFileNoMeta : List Nat :=
  leBytes8 (strBytes exJsonNoMeta).length ++ strBytes exJsonNoMeta ++ [1, 2, 3, 4, 5]

/-- File with only 4 bytes, fewer than the 8-byte length prefix. -/
def exFileShort : List Nat :=
  [0, 0, 0, 0]

/-- File with a complete 8-byte prefix declaring N = 10 but only 5
following bytes. -/
def exFileTruncMeta : List Nat :=
  leBytes8 10 ++ [1, 2, 3, 4, 5]

/-- Lookup misses exactly the keys outside the list. -/
theorem alookup_eq_none {α : Type} (l : List (String × α)) (k : String) :
    alookup l k = none ↔ k ∉ l.map Prod.fst := by
  induction l with
  | nil => simp [alookup]
  | cons x xs ih =>
    obtain ⟨k1, a⟩ := x
    by_cases h : k = k1 <;> simp [alookup, h, ih]

/-- A successful lookup returns an entry of the list. -/
theorem alookup_some_mem {α : Type} (l : List (String × α)) (k : String) (a : α)
    (h : alookup l k = some a) : (k, a) ∈ l := by
  induction l with
  | nil => simp [alookup] at h
  | cons x xs ih =>
    obtain ⟨k1, b⟩ := x
    by_cases hk : k = k1
    · subst hk
      simp [alookup] at h
      simp [h]
    · simp [alookup, hk] at h
      exact List.mem_cons_of_mem _ (ih h)

/-- With no duplicate keys, membership determines the lookup result. -/
theorem alookup_of_mem_nodup {α : Type} (l : List (String × α)) (k : String) (a : α)
    (hnd : (l.map Prod.fst).Nodup) (hm : (k, a) ∈ l) : alookup l k = some a := by
  induction l with
  | nil => simp at hm
  | cons x xs ih =>
    obtain ⟨k1, b⟩ := x
    rw [List.map_cons, List.nodup_cons] at hnd
    simp at hm
    cases hm with
    | inl h =>
      simp [alookup, h.1, h.2]
    | inr h =>
      by_cases hk : k = k1
      · subst hk
        exact absurd (List.mem_map_of_mem Prod.fst h) hnd.1
      · simp [alookup, hk]
        exact ih hnd.2 h

/-- A successful collect is pointwise determined: the entry stored for a
key is the result of the decode task on that key's descriptor, and a key
absent from the descriptor list is absent from the result. -/
theorem buildTensors_ok_lookup (file : List Nat) (items : List (String × MetadataValue))
    (m : List (String × Tensor)) (h : buildTensors file items = .ok m) (k : String) :
    (alookup items k = none → alookup m k = none) ∧
    (∀ v, alookup items k = some v → ∃ t, decodeTask file v = .ok t ∧ alookup m k = some t) := by
  induction items generalizing m with
  | nil =>
    simp [buildTensors] at h
    subst h
    simp [alookup]
  | cons x xs ih =>
    obtain ⟨k1, v1⟩ := x
    simp only [buildTensors] at h
    cases hd : decodeTask file v1 with
    | ok t1 =>
      rw [hd] at h
      cases hb : buildTensors file xs with
      | ok m2 =>
        rw [hb] at h
        simp at h
        subst h
        by_cases hk : k = k1
        · subst hk
          constructor
          · intro hn
            simp [alookup] at hn
          · intro v hv
            simp [alookup] at hv
            subst hv
            exact ⟨t1, hd, by simp [alookup]⟩
        · constructor
          · intro hn
            simp [alookup, hk] at hn ⊢
            exact (ih m2 hb).1 hn
          · intro v hv
            simp [alookup, hk] at hv ⊢
            exact (ih m2 hb).2 v hv
      | err e =>
        rw [hb] at h
        simp at h
      | fatal s =>
        rw [hb] at h
        simp at h
    | err e =>
      rw [hd] at h
      simp at h
    | fatal s =>
      rw [hd] at h
      simp at h

/-- Collecting the same descriptor list in two different orders yields
maps with identical lookups: each key's tensor is a function of its own
descriptor only. -/
theorem buildTensors_perm_lookup (file : List Nat)
    (l1 l2 : List (String × MetadataValue)) (m1 m2 : List (String × Tensor))
    (hp : l1.Perm l2) (hnd : (l1.map Prod.fst).Nodup)
    (h1 : buildTensors file l1 = .ok m1) (h2 : buildTensors file l2 = .ok m2)
    (k : String) : alookup m1 k = alookup m2 k := by
  cases hl : alookup l1 k with
  | none =>
    have hk1 : k ∉ l1.map Prod.fst := (alookup_eq_none _ _).1 hl
    have hk2 : k ∉ l2.map Prod.fst := fun hmem => hk1 (((hp.map Prod.fst).mem_iff).2 hmem)
    have hl2 : alookup l2 k = none := (alookup_eq_none _ _).2 hk2
    rw [(buildTensors_ok_lookup file l1 m1 h1 k).1 hl,
      (buildTensors_ok_lookup file l2 m2 h2 k).1 hl2]
  | some v =>
    have hmem2 : (k, v) ∈ l2 := hp.mem_iff.1 (alookup_some_mem _ _ _ hl)
    have hnd2 : (l2.map Prod.fst).Nodup := ((hp.map Prod.fst).nodup_iff).1 hnd
    have hl2 : alookup l2 k = some v := alookup_of_mem_nodup _ _ _ hnd2 hmem2
    obtain ⟨t1, ht1, hm1⟩ := (buildTensors_ok_lookup file l1 m1 h1 k).2 v hl
    obtain ⟨t2, ht2, hm2⟩ := (buildTensors_ok_lookup file l2 m2 h2 k).2 v hl2
    rw [hm1, hm2]
    obtain rfl : t1 = t2 := by
      have hot := ht1.symm.trans ht2
      injection hot
    rfl

/-- Every successful decode branch copies the descriptor's shape into
the produced tensor unchanged. -/
theorem decodeTask_shape (file : List Nat) (v : MetadataValue) (t : Tensor)
    (h : decodeTask file v = .ok t) : t.shape = v.shape := by
  unfold decodeTask at h
  repeat' split at h
  all_goals
    first
      | (injection h with h2
         subst h2
         rfl)
      | injection h

set_option maxRecDepth 40000

/-- C1: refuted on the code (code bug).  The decode task never adds the
8-byte prefix and the metadata length N to the tensor-relative start: on
a well-formed file with N = 74 and one F32 tensor at data_offsets [0,4],
whose data-region bytes at absolute offset 8 + 74 + 0 are
[170, 171, 172, 173], the code seeks to absolute offset start = 0 and
decodes the length prefix itself, yielding the element word 74 instead
of the word 2913774506 assembled from the bytes at 8 + N + start. -/
theorem c1_decode_ignores_header_offset :
    from_file exFileF32 = .ok ⟨Json.null, [("t", Tensor.F32 [74] [1])]⟩ ∧
    read_bytes exFileF32 (8 + 74 + 0) 4 = some [170, 171, 172, 173] ∧
    leNat [170, 171, 172, 173] ≠ 74 :=
  ⟨rfl, rfl, by decide⟩

/-- C2: refuted on the code (code bug).  For the U8 descriptor with
data_offsets [0,4] the decoded buffer holds 4 - 0 + 1 = 5 bytes, one
more than the 4 bytes of the declared exclusive-end range. -/
theorem c2_u8_reads_extra_byte :
    from_file exFileU8 = .ok ⟨Json.null, [("t", Tensor.U8 [73, 0, 0, 0, 0] [5])]⟩ ∧
    ([73, 0, 0, 0, 0] : List Nat).length = 4 - 0 + 1 ∧
    (4 - 0 + 1 : Nat) ≠ 4 - 0 :=
  ⟨rfl, rfl, by decide⟩

/-- C3: refuted on the code (code bug).  The F32 branch asserts
divisibility by 2 rather than 4, so the range [0,6) of length 6 (not a
multiple of 4) is not rejected: decoding succeeds with a single float
and the two trailing bytes silently dropped, with no alignment error of
any kind. -/
theorem c3_f32_misalignment_not_rejected :
    (6 - 0) % 4 ≠ 0 ∧
    from_file exFileF32Mis = .ok ⟨Json.null, [("t", Tensor.F32 [74] [1])]⟩ ∧
    (from_file exFileF32Mis).isFatal = false ∧
    (from_file exFileF32Mis).isErr = false :=
  ⟨by decide, rfl, rfl, rfl⟩

/-- C4: refuted on the code (code bug).  A descriptor with the
unrecognized dtype I64 makes the decode task panic, which propagates out
of the parallel collect: from_file ends in a process panic, not a
recoverable error value, and no map containing the decodable sibling
tensor is returned, even though that sibling's own task succeeds in
isolation. -/
theorem c4_unsupported_dtype_panics :
    from_file exFileMix = .fatal "The dtype I64 is currently unsupported." ∧
    (from_file exFileMix).isErr = false ∧
    decodeTask exFileMix ⟨"U8", [2], [0, 2]⟩ = .ok (.U8 [127, 0, 0] [2]) :=
  ⟨rfl, rfl, rfl⟩

/-- C5: refuted on the code (code bug).  A metadata block that is not
valid JSON makes serde_json::from_slice fail, and the code hits
.expect("Invalid JSON"): a panic, not a malformed-metadata error value
returned to the caller. -/
theorem c5_malformed_metadata_panics :
    from_slice [120] = .error "invalid json" ∧
    from_file exFileBadJson = .fatal "Invalid JSON" ∧
    (from_file exFileBadJson).isErr = false :=
  ⟨rfl, rfl, rfl⟩

/-- C6: refuted on the code (code bug).  A descriptor with
data_offsets [5,3] (start > end) makes the usize subtraction end - start
underflow, a debug-build panic; no InvalidRangeError value exists
anywhere in the code. -/
theorem c6_reversed_range_panics :
    from_file exFileRev = .fatal "attempt to subtract with overflow" ∧
    (from_file exFileRev).isErr = false :=
  ⟨rfl, rfl⟩

/-- C7: refuted on the code (code bug).  The derived deserializer
requires the __metadata__ field (it is neither an Option nor defaulted),
so a well-formed file whose metadata object omits the reserved key fails
to deserialize and open panics through .expect("Invalid JSON") instead
of succeeding. -/
theorem c7_missing_reserved_key_fails :
    from_slice (strBytes exJsonNoMeta) = .error "missing field __metadata__" ∧
    from_file exFileNoMeta = .fatal "Invalid JSON" :=
  ⟨rfl, rfl⟩

/-- C8, counterexample to distinctness: a 4-byte file and a file with a
complete prefix declaring N = 10 but only 5 following bytes fail with
the very same recoverable unexpected-EOF read error — read_exact raises
the identical error in both places, so the two truncation conditions are
not surfaced as distinct error values. -/
theorem c8_truncation_errors_identical :
    from_file exFileShort = .err "unexpected end of file" ∧
    from_file exFileTruncMeta = .err "unexpected end of file" ∧
    from_file exFileShort = from_file exFileTruncMeta :=
  ⟨rfl, rfl, rfl⟩

/-- C8, amended: open on fewer than 8 available bytes returns the
recoverable unexpected-EOF read error, and open on a complete 8-byte
prefix encoding N with fewer than N following bytes returns the same
recoverable read error; in both cases the error is a returned value (no
panic) and no tensor is decoded, but the two conditions are not
distinguished as distinct error values. -/
theorem c8_truncation_returns_error (file : List Nat) :
    (file.length < 8 → from_file file = .err "unexpected end of file") ∧
    (∀ nb, read_bytes file 0 8 = some nb → file.length < 8 + leNat nb →
      from_file file = .err "unexpected end of file") := by
  constructor
  · intro h
    have h8 : read_bytes file 0 8 = none := by
      simp only [read_bytes, ite_eq_right_iff]
      omega
    simp [from_file, parseHeader, h8]
  · intro nb hnb hlen
    have hN : read_bytes file 8 (leNat nb) = none := by
      simp only [read_bytes, ite_eq_right_iff]
      omega
    simp [from_file, parseHeader, hnb, hN]

/-- C8, witness: the amended theorem applied to the concrete 4-byte file
and to the concrete file declaring N = 10 with 5 following bytes. -/
theorem c8_truncation_returns_error_witness :
    from_file exFileShort = .err "unexpected end of file" ∧
    from_file exFileTruncMeta = .err "unexpected end of file" := by
  constructor
  · exact (c8_truncation_returns_error exFileShort).1 (by decide)
  · exact (c8_truncation_returns_error exFileTruncMeta).2
      [10, 0, 0, 0, 0, 0, 0, 0] (by decide) (by decide)

/-- C9: confirmed.  Decoding the descriptors in reverse of the
ascending-start order produces a map with exactly the same lookups as
decoding them in ascending-start order: each entry is a function of its
own key and descriptor only. -/
theorem c9_reverse_order_same_map (file : List Nat)
    (items : List (String × MetadataValue)) (m1 m2 : List (String × Tensor))
    (hnd : ((sortByStart items).map Prod.fst).Nodup)
    (h1 : buildTensors file (sortByStart items) = .ok m1)
    (h2 : buildTensors file (sortByStart items).reverse = .ok m2) :
    ∀ k, alookup m1 k = alookup m2 k :=
  fun k =>
    buildTensors_perm_lookup file (sortByStart items) (sortByStart items).reverse m1 m2
      (sortByStart items).reverse_perm.symm hnd h1 h2 k

/-- Two-tensor descriptor table used to instantiate the order-independence
theorem. -/
def exItems9 : List (String × MetadataValue) :=
  [("a", ⟨"U8", [2], [0, 2]⟩), ("b", ⟨"U8", [1], [3, 5]⟩)]

/-- Sixteen-byte backing file for the order-independence witness. -/
def exFile9 : List Nat := List.range 16

/-- Map produced by the ascending-start processing order. -/
def exM9a : List (String × Tensor) :=
  [("a", .U8 [0, 1, 2] [2]), ("b", .U8 [0, 1, 2] [1])]

/-- Map produced by the reversed processing order. -/
def exM9b : List (String × Tensor) :=
  [("b", .U8 [0, 1, 2] [1]), ("a", .U8 [0, 1, 2] [2])]

/-- C9, witness: the order-independence theorem applied to a concrete
two-tensor table, with both processing orders evaluated. -/
theorem c9_reverse_order_same_map_witness :
    ((sortByStart exItems9).map Prod.fst).Nodup ∧
    buildTensors exFile9 (sortByStart exItems9) = .ok exM9a ∧
    buildTensors exFile9 (sortByStart exItems9).reverse = .ok exM9b ∧
    alookup exM9a "a" = alookup exM9b "a" :=
  ⟨by decide, by decide, by decide,
    c9_reverse_order_same_map exFile9 exItems9 exM9a exM9b (by decide) (by decide) (by decide) "a"⟩

/-- C10: confirmed.  Whenever open succeeds, every tensor in the
returned map carries exactly the shape array of its descriptor: all
decode branches copy the descriptor's shape through unchanged. -/
theorem c10_shapes_preserved (file : List Nat) (md : Metadata) (r : Reader)
    (k : String) (v : MetadataValue)
    (hh : parseHeader file = .ok md)
    (hf : from_file file = .ok r)
    (hv : alookup (sortByStart md.items) k = some v) :
    ∃ t, alookup r.tensors k = some t ∧ t.shape = v.shape := by
  unfold from_file at hf
  rw [hh] at hf
  dsimp only at hf
  by_cases hg : md.items.any (fun kv => kv.2.data_offsets.isEmpty)
  · rw [if_pos hg] at hf
    exact absurd hf (by simp)
  · rw [if_neg hg] at hf
    cases hb : buildTensors file (sortByStart md.items) with
    | ok ts =>
      rw [hb] at hf
      simp at hf
      obtain ⟨t, ht, hl⟩ := (buildTensors_ok_lookup file _ ts hb k).2 v hv
      refine ⟨t, ?_, decodeTask_shape file v t ht⟩
      rw [← hf]
      exact hl
    | err e =>
      rw [hb] at hf
      exact absurd hf (by simp)
    | fatal s =>
      rw [hb] at hf
      exact absurd hf (by simp)

/-- Metadata parsed from the well-formed one-tensor U8 file. -/
def exMdU8 : Metadata := ⟨Json.null, [("t", ⟨"U8", [5], [0, 4]⟩)]⟩

/-- Reader produced from the well-formed one-tensor U8 file. -/
def exReaderU8 : Reader := ⟨Json.null, [("t", .U8 [73, 0, 0, 0, 0] [5])]⟩

/-- C10, witness: the shape-preservation theorem applied to the concrete
one-tensor U8 file; the decoded tensor carries the declared shape [5]. -/
theorem c10_shapes_preserved_witness :
    parseHeader exFileU8 = .ok exMdU8 ∧
    from_file exFileU8 = .ok exReaderU8 ∧
    alookup (sortByStart exMdU8.items) "t" = some ⟨"U8", [5], [0, 4]⟩ ∧
    ∃ t, alookup exReaderU8.tensors "t" = some t ∧ t.shape = ([5] : List Nat) :=
  ⟨rfl, rfl, rfl,
    c10_shapes_preserved exFileU8 exMdU8 exReaderU8 "t" ⟨"U8", [5], [0, 4]⟩ rfl rfl rfl⟩
